import Mathlib

/-!
Shallow embedding of the ratsensor service (ponytojas/labtool-raspi) and
verification of the frozen claims about it.

The embedding follows the Python sources:
- ratsensor/core/domain.py        (data model)
- ratsensor/adapters/storage/sqlite.py (durable storage)
- ratsensor/adapters/publisher/mqtt.py (connection manager / publisher)
- ratsensor/core/service.py       (orchestrator)
- main.py                          (process entry point)

Python floats are modelled as rationals; float rounding is not relevant to
any claim. Nondeterminism (random jitter, connection outcomes, storage
success) is modelled by explicit input parameters.
-/

namespace RatSensor

/-! ## Data model: ratsensor/core/domain.py -/

/-- SensorData dataclass (domain.py lines 4-10). -/
structure SensorData where
  timestamp : String
  device_id : String
  temperature : Option ℚ
  humidity : Option ℚ
  light : Option ℤ
deriving DecidableEq

/-- AppConfig dataclass (domain.py lines 22-51).  String-formatting template
fields and filesystem paths are irrelevant to the claims and are kept as
plain strings; defaults are those of domain.py. -/
structure AppConfig where
  read_interval_seconds : ℤ := 30
  db_save_interval_reads : ℕ := 5
  mqtt_broker : Option String := none
  mqtt_port : ℤ := 1883
  mqtt_user : Option String := none
  mqtt_pass : Option String := none
  listen_for_admin : Bool := false
  mqtt_initial_retry_delay : ℚ := 15
  mqtt_max_retry_delay : ℚ := 300
  mqtt_retry_backoff_factor : ℚ := 2
  simulation_mode : Bool := false
  dht_pin : ℤ := 14
  i2c_bus_number : ℤ := 1
deriving DecidableEq

/-- The default configuration of domain.py. -/
def defaultConfig : AppConfig := {}

/-! ## Durable storage: ratsensor/adapters/storage/sqlite.py

The sensor_readings table is created with `timestamp TEXT PRIMARY KEY`
(initialize, lines 31-39); rows are inserted with INSERT OR IGNORE
(save_sensor_readings, lines 68-72), so a row whose timestamp is already
present is skipped.  The table is modelled as the list of its rows, and
one INSERT OR IGNORE as `insertOrIgnore`. -/

/-- State of `SQLiteStorageAdapter`: the `_initialized` flag, the rows of
the sensor_readings table, and a count of executed write transactions. -/
structure SqliteState where
  initialized : Bool
  rows : List SensorData
  writeOps : ℕ
deriving DecidableEq

/-- One `INSERT OR IGNORE` of record `r` into the table: a no-op when a row
with the same primary-key timestamp exists, an append otherwise. -/
def insertOrIgnore (rows : List SensorData) (r : SensorData) : List SensorData :=
  if rows.any (fun q => q.timestamp == r.timestamp) then rows else rows ++ [r]

/-- `SQLiteStorageAdapter.save_sensor_readings` (sqlite.py lines 53-88).
Returns False when not initialized (lines 54-56); returns True without
touching the database on an empty batch (lines 57-58); otherwise runs one
executemany/commit transaction.  `dbOk` models whether sqlite raises
(locked database or other errors, lines 77-88): on an error nothing is
committed and False is returned. -/
def save_sensor_readings (st : SqliteState) (readings : List SensorData)
    (dbOk : Bool) : Bool × SqliteState :=
  if st.initialized = false then (false, st)
  else if readings.isEmpty then (true, st)
  else if dbOk then
    (true, { st with rows := readings.foldl insertOrIgnore st.rows,
                     writeOps := st.writeOps + 1 })
  else (false, st)

/-! ### Lemmas about INSERT OR IGNORE -/

theorem mem_insertOrIgnore {rows : List SensorData} {q : SensorData}
    (r : SensorData) (h : q ∈ rows) : q ∈ insertOrIgnore rows r := by
  unfold insertOrIgnore
  split
  · exact h
  · exact List.mem_append_left _ h

theorem any_insertOrIgnore_self (rows : List SensorData) (r : SensorData) :
    (insertOrIgnore rows r).any (fun q => q.timestamp == r.timestamp) = true := by
  unfold insertOrIgnore
  split
  · assumption
  · simp [List.any_append]

theorem any_insertOrIgnore_mono (rows : List SensorData) (r : SensorData)
    (t : String) (h : rows.any (fun q => q.timestamp == t) = true) :
    (insertOrIgnore rows r).any (fun q => q.timestamp == t) = true := by
  unfold insertOrIgnore
  split
  · exact h
  · rcases List.any_eq_true.mp h with ⟨x, hx, hpx⟩
    exact List.any_eq_true.mpr ⟨x, List.mem_append_left _ hx, hpx⟩

theorem insertOrIgnore_of_any (rows : List SensorData) (r : SensorData)
    (h : rows.any (fun q => q.timestamp == r.timestamp) = true) :
    insertOrIgnore rows r = rows := by
  unfold insertOrIgnore
  simp [h]

theorem countP_insertOrIgnore (rows : List SensorData) (r : SensorData)
    (t : String) (h : rows.any (fun q => q.timestamp == t) = true) :
    (insertOrIgnore rows r).countP (fun x => x.timestamp == t) =
      rows.countP (fun x => x.timestamp == t) := by
  unfold insertOrIgnore
  split
  · rfl
  · rename_i hn
    have hrt : (r.timestamp == t) = false := by
      cases hbe : (r.timestamp == t) with
      | false => rfl
      | true =>
          exfalso
          apply hn
          have heq : r.timestamp = t := eq_of_beq hbe
          rw [heq]
          exact h
    rw [List.countP_append]
    simp [List.countP_cons, hrt]

theorem foldl_insertOrIgnore_mem (batch : List SensorData) :
    ∀ (rows : List SensorData) (q : SensorData), q ∈ rows →
      q ∈ batch.foldl insertOrIgnore rows := by
  induction batch with
  | nil => intro rows q h; simpa using h
  | cons b bs ih =>
      intro rows q h
      exact ih _ _ (mem_insertOrIgnore b h)

theorem foldl_insertOrIgnore_any (batch : List SensorData) :
    ∀ (rows : List SensorData) (t : String),
      rows.any (fun q => q.timestamp == t) = true →
      (batch.foldl insertOrIgnore rows).any (fun q => q.timestamp == t) = true := by
  induction batch with
  | nil => intro rows t h; simpa using h
  | cons b bs ih =>
      intro rows t h
      exact ih _ _ (any_insertOrIgnore_mono rows b t h)

theorem foldl_insertOrIgnore_countP (batch : List SensorData) :
    ∀ (rows : List SensorData) (t : String),
      rows.any (fun q => q.timestamp == t) = true →
      (batch.foldl insertOrIgnore rows).countP (fun x => x.timestamp == t) =
        rows.countP (fun x => x.timestamp == t) := by
  induction batch with
  | nil => intro rows t _; rfl
  | cons b bs ih =>
      intro rows t h
      have h1 := any_insertOrIgnore_mono rows b t h
      calc ((b :: bs).foldl insertOrIgnore rows).countP (fun x => x.timestamp == t)
          = (bs.foldl insertOrIgnore (insertOrIgnore rows b)).countP
              (fun x => x.timestamp == t) := rfl
        _ = (insertOrIgnore rows b).countP (fun x => x.timestamp == t) := ih _ _ h1
        _ = rows.countP (fun x => x.timestamp == t) :=
              countP_insertOrIgnore rows b t h

theorem foldl_insertOrIgnore_elem_any (batch : List SensorData) :
    ∀ (rows : List SensorData) (r : SensorData), r ∈ batch →
      (batch.foldl insertOrIgnore rows).any
        (fun q => q.timestamp == r.timestamp) = true := by
  induction batch with
  | nil => intro rows r h; simp at h
  | cons b bs ih =>
      intro rows r h
      rcases List.mem_cons.mp h with h | h
      · subst h
        exact foldl_insertOrIgnore_any bs (insertOrIgnore rows r) r.timestamp
          (any_insertOrIgnore_self rows r)
      · exact ih _ _ h

theorem foldl_insertOrIgnore_id (batch : List SensorData) :
    ∀ (rows : List SensorData),
      (∀ r ∈ batch, rows.any (fun q => q.timestamp == r.timestamp) = true) →
      batch.foldl insertOrIgnore rows = rows := by
  induction batch with
  | nil => intro rows _; rfl
  | cons b bs ih =>
      intro rows h
      have hb := h b (List.mem_cons_self b bs)
      calc (b :: bs).foldl insertOrIgnore rows
          = bs.foldl insertOrIgnore (insertOrIgnore rows b) := rfl
        _ = bs.foldl insertOrIgnore rows := by rw [insertOrIgnore_of_any rows b hb]
        _ = rows := ih rows (fun r hr => h r (List.mem_cons_of_mem b hr))

/-! ## Connection manager: ratsensor/adapters/publisher/mqtt.py

The MqttAdapter owns `_is_connected`, `_current_retry_delay`,
`_last_connection_attempt_time`, a client reference, a stop event and the
background supervision thread started by `connect()`.  Wall-clock time and
the random jitter are explicit parameters. -/

/-- Connection-relevant state of `MqttAdapter` (mqtt.py lines 16-26).
`liveSupervisionTasks` counts the live `_connection_loop` threads and
`spawnedThreads` the total ever started, so that claims about
at-most-one supervision task are contentful. -/
structure MqttState where
  is_connected : Bool
  current_retry_delay : ℚ
  last_connection_attempt_time : ℚ
  hasClient : Bool
  threadAlive : Bool
  liveSupervisionTasks : ℕ
  spawnedThreads : ℕ
  stopEventSet : Bool
deriving DecidableEq

/-- The adapter state right after `__init__` (mqtt.py lines 16-26):
disconnected, no client, no thread, retry delay at the configured initial
value, last attempt time 0. -/
def mqttInit (cfg : AppConfig) : MqttState :=
  { is_connected := false
    current_retry_delay := cfg.mqtt_initial_retry_delay
    last_connection_attempt_time := 0
    hasClient := false
    threadAlive := false
    liveSupervisionTasks := 0
    spawnedThreads := 0
    stopEventSet := false }

/-- `MqttAdapter._on_connect` (mqtt.py lines 39-58): on rc = 0 mark
connected and reset `_current_retry_delay` to the configured initial
value; on any other rc mark disconnected. -/
def onConnect (cfg : AppConfig) (st : MqttState) (rc : ℤ) : MqttState :=
  if rc = 0 then
    { st with is_connected := true,
              current_retry_delay := cfg.mqtt_initial_retry_delay }
  else
    { st with is_connected := false }

/-- The backoff update applied on a failed connection attempt
(mqtt.py lines 143-148, repeated at 159-163 and 171-175):
first cap the multiplied delay at the configured maximum, then add the
jitter drawn by random.uniform(0, 5). -/
def failureBackoff (cfg : AppConfig) (d j : ℚ) : ℚ :=
  min (d * cfg.mqtt_retry_backoff_factor) cfg.mqtt_max_retry_delay + j

/-- Outcome of one connection attempt inside `_connection_loop`. -/
inductive ConnectOutcome where
  /-- `_on_connect` fired with rc = 0 within the 5 s wait (lines 135-138). -/
  | success
  /-- no successful connect within the 5 s wait, including a broker reply
  with rc different from 0 (lines 140-152). -/
  | timeout
  /-- ConnectionRefusedError or OSError raised (lines 155-166). -/
  | connError
  /-- any other exception (lines 167-178). -/
  | unexpectedError
deriving DecidableEq

/-- One iteration of `MqttAdapter._connection_loop` (mqtt.py lines
110-181).  When the stop event is set the loop exits; when connected it
sleeps; otherwise, if the retry delay has elapsed since the previous
attempt, it records the attempt time, rebuilds the client and attempts a
connect whose outcome is `outcome`; every failing outcome applies
`failureBackoff` with the drawn `jitter`. -/
def connectionLoopBody (cfg : AppConfig) (st : MqttState) (now : ℚ)
    (outcome : ConnectOutcome) (jitter : ℚ) : MqttState :=
  if st.stopEventSet then st
  else if st.is_connected then st
  else if st.current_retry_delay ≤ now - st.last_connection_attempt_time then
    let st1 := { st with last_connection_attempt_time := now, hasClient := true }
    match outcome with
    | ConnectOutcome.success => onConnect cfg st1 0
    | ConnectOutcome.timeout =>
        { st1 with
            current_retry_delay := failureBackoff cfg st1.current_retry_delay jitter }
    | ConnectOutcome.connError =>
        { st1 with
            is_connected := false,
            current_retry_delay := failureBackoff cfg st1.current_retry_delay jitter }
    | ConnectOutcome.unexpectedError =>
        { st1 with
            is_connected := false,
            current_retry_delay := failureBackoff cfg st1.current_retry_delay jitter }
  else st

/-- The successive values of `_current_retry_delay` produced by a run of
consecutive failed connection attempts starting from delay `d`, one list
element per failure, driven by the drawn jitters. -/
def retryDelays (cfg : AppConfig) (d : ℚ) : List ℚ → List ℚ
  | [] => []
  | j :: js => failureBackoff cfg d j :: retryDelays cfg (failureBackoff cfg d j) js

/-- `MqttAdapter.connect` (mqtt.py lines 203-216): when the supervision
thread is already alive it only warns and returns; otherwise it clears the
stop event and starts one new `_connection_loop` thread. -/
def connect (st : MqttState) : MqttState :=
  if st.threadAlive then st
  else
    { st with stopEventSet := false,
              threadAlive := true,
              liveSupervisionTasks := st.liveSupervisionTasks + 1,
              spawnedThreads := st.spawnedThreads + 1 }

/-- Result of the underlying `client.publish` call inside
`MqttAdapter._publish`. -/
inductive PublishOutcome where
  /-- rc = MQTT_ERR_SUCCESS (line 249). -/
  | success
  /-- rc = MQTT_ERR_NO_CONN (line 255). -/
  | errNoConn
  /-- rc = MQTT_ERR_CONN_LOST (line 255). -/
  | errConnLost
  /-- any other non-success rc, e.g. a full local message queue
  (lines 252-258). -/
  | otherFailure
  /-- an exception raised while serialising or publishing
  (lines 259-264). -/
  | raised
deriving DecidableEq

/-- Transport-level publish failures: the connection-loss result codes and
exceptions, exactly the cases for which `_publish` marks the adapter
disconnected.  A non-success rc such as a full local queue is a
client-local condition, not a transport failure. -/
def transportFailure : PublishOutcome → Bool
  | PublishOutcome.errNoConn => true
  | PublishOutcome.errConnLost => true
  | PublishOutcome.raised => true
  | _ => false

/-- Result of `MqttAdapter._publish`: the returned Bool, the state after
the call, and whether a transport I/O attempt (a `client.publish` call)
was made. -/
structure PublishResult where
  ok : Bool
  st : MqttState
  ioAttempted : Bool
deriving DecidableEq

/-- `MqttAdapter._publish` (mqtt.py lines 239-264): return False at once,
without any transport I/O, when not connected or without a client;
otherwise publish once (no retry), and on MQTT_ERR_NO_CONN,
MQTT_ERR_CONN_LOST or an exception mark the adapter disconnected. -/
def publishStep (st : MqttState) (outcome : PublishOutcome) : PublishResult :=
  if st.is_connected = false ∨ st.hasClient = false then
    { ok := false, st := st, ioAttempted := false }
  else
    match outcome with
    | PublishOutcome.success => { ok := true, st := st, ioAttempted := true }
    | PublishOutcome.errNoConn =>
        { ok := false, st := { st with is_connected := false }, ioAttempted := true }
    | PublishOutcome.errConnLost =>
        { ok := false, st := { st with is_connected := false }, ioAttempted := true }
    | PublishOutcome.otherFailure =>
        { ok := false, st := st, ioAttempted := true }
    | PublishOutcome.raised =>
        { ok := false, st := { st with is_connected := false }, ioAttempted := true }

/-! ## Orchestrator: ratsensor/core/service.py and main.py

The service state carries the fields of SensorMonitoringService together
with observation counters: how many times `shutdown()` has run, the
successive batches passed to `storage.save_sensor_readings`, how many
cycle iterations ran and how many publish attempts were made. -/

/-- State of `SensorMonitoringService` (service.py lines 37-40) plus
effect counters for the calls it makes. -/
structure ServiceState where
  running : Bool
  sensor_data_buffer : List SensorData
  measurement_count : ℕ
  shutdownCalls : ℕ
  storageSaves : List (List SensorData)
  publishAttempts : ℕ
  cyclesRun : ℕ
deriving DecidableEq

/-- The service state built by `__init__` (service.py lines 37-40). -/
def serviceInit : ServiceState :=
  { running := false
    sensor_data_buffer := []
    measurement_count := 0
    shutdownCalls := 0
    storageSaves := []
    publishAttempts := 0
    cyclesRun := 0 }

/-- The Boolean returned by `SensorMonitoringService.initialize`
(service.py lines 58-90): False exactly when the resolved device id is
empty or carries the temporary prefix (lines 62-65,
`not self.device_id or self.device_id.startswith("temp-")`); sensor and
storage initialisation failures only log warnings. -/
def initResult (device_id : String) : Bool :=
  !(device_id.data.isEmpty || "temp-".data.isPrefixOf device_id.data)

/-- The environment of one iteration of the main loop: the reading
produced in this cycle, whether a threshold-triggered durable save would
succeed, and the publisher connection state. -/
structure CycleInput where
  reading : SensorData
  saveOk : Bool
  publisherConnected : Bool
deriving DecidableEq

/-- One iteration of the main loop of `SensorMonitoringService.run`
(service.py lines 101-155): append the reading to the buffer and bump the
counter (lines 123-124); if the counter reached
`db_save_interval_reads`, pass the entire buffer to
`storage.save_sensor_readings`, clearing buffer and counter exactly when
the save succeeded (lines 127-134); then publish when the publisher is
connected (lines 137-145). -/
def runCycle (cfg : AppConfig) (st : ServiceState) (c : CycleInput) : ServiceState :=
  let buf := st.sensor_data_buffer ++ [c.reading]
  let cnt := st.measurement_count + 1
  let st1 : ServiceState :=
    if cfg.db_save_interval_reads ≤ cnt then
      if c.saveOk then
        { st with sensor_data_buffer := [],
                  measurement_count := 0,
                  storageSaves := st.storageSaves ++ [buf],
                  cyclesRun := st.cyclesRun + 1 }
      else
        { st with sensor_data_buffer := buf,
                  measurement_count := cnt,
                  storageSaves := st.storageSaves ++ [buf],
                  cyclesRun := st.cyclesRun + 1 }
    else
      { st with sensor_data_buffer := buf,
                measurement_count := cnt,
                cyclesRun := st.cyclesRun + 1 }
  if c.publisherConnected then
    { st1 with publishAttempts := st1.publishAttempts + 1 }
  else st1

/-- `SensorMonitoringService.shutdown` (service.py lines 167-196): clear
`_running`, and when the pending buffer is non-empty pass it to
`storage.save_sensor_readings`.  The buffer is NOT cleared afterwards
(lines 173-175 ignore the save result and keep `_sensor_data_buffer`). -/
def serviceShutdown (st : ServiceState) : ServiceState :=
  let st1 := { st with running := false, shutdownCalls := st.shutdownCalls + 1 }
  if st1.sensor_data_buffer.isEmpty then st1
  else { st1 with storageSaves := st1.storageSaves ++ [st1.sensor_data_buffer] }

/-- `SensorMonitoringService.run` (service.py lines 92-165): when
`initialize()` fails, return at once without entering the loop; otherwise
run the loop iterations that execute before the stop (the `cycles` list),
then call `shutdown()` once the loop exits. -/
def serviceRun (cfg : AppConfig) (device_id : String)
    (cycles : List CycleInput) : ServiceState :=
  if initResult device_id then
    let st := cycles.foldl (runCycle cfg) { serviceInit with running := true }
    serviceShutdown { st with running := false }
  else serviceInit

/-- `main` (main.py lines 92-210): run the service, then in the `finally:`
block call `monitoring_service.shutdown()` again whenever `_running` is
false (lines 197-198, comment "Check if already shut down"). -/
def mainRun (cfg : AppConfig) (device_id : String)
    (cycles : List CycleInput) : ServiceState :=
  let st := serviceRun cfg device_id cycles
  if st.running = false then serviceShutdown st else st

/-! ## Admin command handler: service.py lines 42-56 -/

/-- Externally visible calls made by `_handle_admin_command`. -/
inductive AdminEffect where
  /-- `self.publisher.disconnect()` (line 49). -/
  | publisherDisconnectCall
  /-- `self.admin_listener.stop_listening()` (line 51). -/
  | listenerStopCall
  /-- `self.command_executor.execute_reboot()` (line 54). -/
  | rebootCall
deriving DecidableEq

/-- `SensorMonitoringService._handle_admin_command` (service.py lines
42-56).  On the command "reboot": attempt publisher disconnect and, when
an admin listener is registered, listener stop (both inside a try whose
exceptions are caught, modelled by `disconnectRaises`), then call
`execute_reboot`.  Any other command is only logged.  The second
component records whether an exception propagates to the caller: never,
since the cleanup is guarded and `OSCommandExecutor.execute_reboot`
catches its own exceptions (os_command.py lines 14-22). -/
def handle_admin_command (command : String) (hasAdminListener : Bool)
    (disconnectRaises : Bool) : List AdminEffect × Bool :=
  if command = "reboot" then
    let cleanup :=
      if disconnectRaises then [AdminEffect.publisherDisconnectCall]
      else
        AdminEffect.publisherDisconnectCall ::
          (if hasAdminListener then [AdminEffect.listenerStopCall] else [])
    (cleanup ++ [AdminEffect.rebootCall], false)
  else ([], false)

/-! ## Invariant lemmas for the retry backoff -/

theorem failureBackoff_step (cfg : AppConfig)
    (hf : 1 ≤ cfg.mqtt_retry_backoff_factor) (hm : 0 ≤ cfg.mqtt_max_retry_delay)
    (d j : ℚ) (hd0 : 0 ≤ d) (hd : d < cfg.mqtt_max_retry_delay + 5)
    (hj0 : 0 ≤ j) (hj5 : j < 5) :
    0 ≤ failureBackoff cfg d j ∧
    failureBackoff cfg d j < cfg.mqtt_max_retry_delay + 5 ∧
    d - 5 < failureBackoff cfg d j := by
  unfold failureBackoff
  refine ⟨?_, ?_, ?_⟩
  · have h1 : (0:ℚ) ≤ d * cfg.mqtt_retry_backoff_factor := by nlinarith
    have h2 := le_min h1 hm
    linarith
  · have := min_le_right (d * cfg.mqtt_retry_backoff_factor) cfg.mqtt_max_retry_delay
    linarith
  · rcases le_total (d * cfg.mqtt_retry_backoff_factor) cfg.mqtt_max_retry_delay with h | h
    · rw [min_eq_left h]
      nlinarith
    · rw [min_eq_right h]
      linarith

theorem retryDelays_invariant (cfg : AppConfig)
    (hf : 1 ≤ cfg.mqtt_retry_backoff_factor) (hm : 0 ≤ cfg.mqtt_max_retry_delay) :
    ∀ (js : List ℚ) (d : ℚ), 0 ≤ d → d < cfg.mqtt_max_retry_delay + 5 →
      (∀ j ∈ js, 0 ≤ j ∧ j < 5) →
      (∀ x ∈ retryDelays cfg d js, 0 ≤ x ∧ x < cfg.mqtt_max_retry_delay + 5) ∧
      List.Chain (fun a b => a - 5 < b) d (retryDelays cfg d js) := by
  intro js
  induction js with
  | nil =>
      intro d _ _ _
      exact ⟨by simp [retryDelays], List.Chain.nil⟩
  | cons j js ih =>
      intro d hd0 hd hjs
      have hj := hjs j (List.mem_cons_self j js)
      have hstep := failureBackoff_step cfg hf hm d j hd0 hd hj.1 hj.2
      have ihr := ih (failureBackoff cfg d j) hstep.1 hstep.2.1
        (fun x hx => hjs x (List.mem_cons_of_mem j hx))
      constructor
      · intro x hx
        simp only [retryDelays] at hx
        rcases List.mem_cons.mp hx with h | h
        · subst h
          exact ⟨hstep.1, hstep.2.1⟩
        · exact ihr.1 x h
      · simp only [retryDelays]
        exact List.Chain.cons hstep.2.2 ihr.2

/-! ## Claims -/

/-- Claim C1 counterexample.  With the default configuration
(initial delay 15, factor 2, maximum 300) and the valid jitter draws
0,0,0,0,0,1,0 (each in the interval from 0 inclusive to 5 exclusive), the
delay sequence of seven consecutive failures is
30,60,120,240,300,301,300: it is not non-decreasing (301 is followed by
300) and 301 exceeds the configured maximum 300. -/
theorem retry_delay_monotone_bound_cex :
    (∀ j ∈ ([0, 0, 0, 0, 0, 1, 0] : List ℚ), 0 ≤ j ∧ j < 5) ∧
    ¬ List.Chain (fun a b => a ≤ b) defaultConfig.mqtt_initial_retry_delay
        (retryDelays defaultConfig defaultConfig.mqtt_initial_retry_delay
          [0, 0, 0, 0, 0, 1, 0]) ∧
    ¬ (∀ x ∈ retryDelays defaultConfig defaultConfig.mqtt_initial_retry_delay
          [0, 0, 0, 0, 0, 1, 0], x ≤ defaultConfig.mqtt_max_retry_delay) := by
  have htr : retryDelays defaultConfig defaultConfig.mqtt_initial_retry_delay
      [0, 0, 0, 0, 0, 1, 0] = [30, 60, 120, 240, 300, 301, 300] := by
    norm_num [retryDelays, failureBackoff, defaultConfig, min_def]
  refine ⟨?_, ?_, ?_⟩
  · intro j hj
    fin_cases hj <;> norm_num
  · rw [htr]
    intro hc
    rcases hc with _ | ⟨h1, hc⟩
    rcases hc with _ | ⟨h2, hc⟩
    rcases hc with _ | ⟨h3, hc⟩
    rcases hc with _ | ⟨h4, hc⟩
    rcases hc with _ | ⟨h5, hc⟩
    rcases hc with _ | ⟨h6, hc⟩
    rcases hc with _ | ⟨h7, hc⟩
    norm_num at h7
  · rw [htr]
    intro hall
    exact absurd (hall 301 (by norm_num)) (by norm_num [defaultConfig])

/-- Claim C1 (amended): across consecutive failed connection attempts the
retry delay stays nonnegative and strictly below the configured maximum
plus the jitter bound 5, and never decreases by 5 or more from one
failure to the next (non-decreasing up to jitter); after a successful
reconnect, `_on_connect` resets it exactly to the configured initial
value. -/
theorem retry_delay_bounds (cfg : AppConfig)
    (hf : 1 ≤ cfg.mqtt_retry_backoff_factor) (hm : 0 ≤ cfg.mqtt_max_retry_delay)
    (hi0 : 0 ≤ cfg.mqtt_initial_retry_delay)
    (hi : cfg.mqtt_initial_retry_delay ≤ cfg.mqtt_max_retry_delay)
    (js : List ℚ) (hjs : ∀ j ∈ js, 0 ≤ j ∧ j < 5) (st : MqttState) :
    (∀ x ∈ retryDelays cfg cfg.mqtt_initial_retry_delay js,
        0 ≤ x ∧ x < cfg.mqtt_max_retry_delay + 5) ∧
    List.Chain (fun a b => a - 5 < b) cfg.mqtt_initial_retry_delay
      (retryDelays cfg cfg.mqtt_initial_retry_delay js) ∧
    (onConnect cfg st 0).current_retry_delay = cfg.mqtt_initial_retry_delay := by
  have h := retryDelays_invariant cfg hf hm js cfg.mqtt_initial_retry_delay hi0
    (by linarith) hjs
  exact ⟨h.1, h.2, by simp [onConnect]⟩

/-- Witness for the amended C1 at the default configuration and the
jitter draws 0 and 4. -/
theorem retry_delay_bounds_wit :
    (∀ x ∈ retryDelays defaultConfig defaultConfig.mqtt_initial_retry_delay [0, 4],
        0 ≤ x ∧ x < defaultConfig.mqtt_max_retry_delay + 5) ∧
    List.Chain (fun a b => a - 5 < b) defaultConfig.mqtt_initial_retry_delay
      (retryDelays defaultConfig defaultConfig.mqtt_initial_retry_delay [0, 4]) ∧
    (onConnect defaultConfig (mqttInit defaultConfig) 0).current_retry_delay
      = defaultConfig.mqtt_initial_retry_delay :=
  retry_delay_bounds defaultConfig (by norm_num [defaultConfig])
    (by norm_num [defaultConfig]) (by norm_num [defaultConfig])
    (by norm_num [defaultConfig]) [0, 4]
    (by intro j hj; fin_cases hj <;> norm_num) (mqttInit defaultConfig)

/-- Claim C2: on a due, failed connection attempt the supervision loop
updates the retry delay to min(current * backoff_factor, max_delay) plus
the drawn jitter, and on a successful connection (`_on_connect` with
rc = 0) the delay is reset to the configured initial value. -/
theorem backoff_update_formula (cfg : AppConfig) (st : MqttState)
    (now jitter : ℚ) (outcome : ConnectOutcome)
    (hstop : st.stopEventSet = false) (hconn : st.is_connected = false)
    (hdue : st.current_retry_delay ≤ now - st.last_connection_attempt_time)
    (hj0 : 0 ≤ jitter) (hj5 : jitter < 5)
    (hfail : outcome ≠ ConnectOutcome.success) :
    (connectionLoopBody cfg st now outcome jitter).current_retry_delay =
      min (st.current_retry_delay * cfg.mqtt_retry_backoff_factor)
        cfg.mqtt_max_retry_delay + jitter ∧
    (connectionLoopBody cfg st now ConnectOutcome.success jitter).current_retry_delay =
      cfg.mqtt_initial_retry_delay ∧
    (onConnect cfg st 0).current_retry_delay = cfg.mqtt_initial_retry_delay := by
  refine ⟨?_, ?_, ?_⟩
  · cases outcome with
    | success => exact absurd rfl hfail
    | timeout => simp [connectionLoopBody, failureBackoff, hstop, hconn, hdue]
    | connError => simp [connectionLoopBody, failureBackoff, hstop, hconn, hdue]
    | unexpectedError => simp [connectionLoopBody, failureBackoff, hstop, hconn, hdue]
  · simp [connectionLoopBody, onConnect, hstop, hconn, hdue]
  · simp [onConnect]

/-- Witness for C2: freshly initialised adapter under the default
configuration, attempt due at time 20 with jitter 1. -/
theorem backoff_update_formula_wit :
    (connectionLoopBody defaultConfig (mqttInit defaultConfig) 20
        ConnectOutcome.timeout 1).current_retry_delay = 31 ∧
    (connectionLoopBody defaultConfig (mqttInit defaultConfig) 20
        ConnectOutcome.success 1).current_retry_delay = 15 := by
  have h := backoff_update_formula defaultConfig (mqttInit defaultConfig) 20 1
    ConnectOutcome.timeout rfl rfl (by norm_num [mqttInit, defaultConfig])
    (by norm_num) (by norm_num) (by simp)
  constructor
  · rw [h.1]
    norm_num [mqttInit, defaultConfig]
  · rw [h.2.1]
    norm_num [defaultConfig]

/-- The reading used in the concrete shutdown scenario. -/
def bugReading : SensorData :=
  { timestamp := "t0", device_id := "rpi-1",
    temperature := none, humidity := none, light := none }

/-- Claim C3 evaluated on the code: one loop iteration buffers one
reading (threshold 5 not reached), the loop stops, `run()` calls
`shutdown()`, and then the `finally:` block of `main()` calls
`shutdown()` a second time because `_running` is false precisely after
the first shutdown; the non-empty buffer, never cleared by `shutdown()`,
is passed to the durable save twice. -/
theorem shutdown_runs_twice :
    (mainRun defaultConfig "rpi-1"
        [{ reading := bugReading, saveOk := true, publisherConnected := true }]).shutdownCalls
      = 2 ∧
    (mainRun defaultConfig "rpi-1"
        [{ reading := bugReading, saveOk := true, publisherConnected := true }]).storageSaves
      = [[bugReading], [bugReading]] := by
  constructor <;> rfl

/-- Claim C4: a publish while not connected returns False with no
transport I/O attempt and leaves the state unchanged; a publish that
fails at the transport level (connection-lost result codes or an
exception) returns False and marks the adapter Disconnected. -/
theorem publish_fails_closed (st : MqttState) (outcome : PublishOutcome) :
    (st.is_connected = false →
      publishStep st outcome = { ok := false, st := st, ioAttempted := false }) ∧
    (st.is_connected = true → st.hasClient = true → transportFailure outcome = true →
      (publishStep st outcome).ok = false ∧
      (publishStep st outcome).st.is_connected = false) := by
  constructor
  · intro h
    simp [publishStep, h]
  · intro hc hcl ht
    cases outcome <;> simp_all [publishStep, transportFailure]

/-- Witness for C4: a disconnected adapter refuses to publish without
I/O, and a connected adapter becomes Disconnected on a lost-connection
result code. -/
theorem publish_fails_closed_wit :
    (publishStep (mqttInit defaultConfig) PublishOutcome.success
      = { ok := false, st := mqttInit defaultConfig, ioAttempted := false }) ∧
    (publishStep
        { mqttInit defaultConfig with is_connected := true, hasClient := true }
        PublishOutcome.errConnLost).ok = false ∧
    (publishStep
        { mqttInit defaultConfig with is_connected := true, hasClient := true }
        PublishOutcome.errConnLost).st.is_connected = false := by
  refine ⟨?_, ?_, ?_⟩
  · exact (publish_fails_closed (mqttInit defaultConfig) PublishOutcome.success).1 rfl
  · exact ((publish_fails_closed
      { mqttInit defaultConfig with is_connected := true, hasClient := true }
      PublishOutcome.errConnLost).2 rfl rfl rfl).1
  · exact ((publish_fails_closed
      { mqttInit defaultConfig with is_connected := true, hasClient := true }
      PublishOutcome.errConnLost).2 rfl rfl rfl).2

/-- Claim C5: in a cycle in which the measurement counter reaches the
configured batch size, the entire pending buffer is passed to the
durable save; a successful save clears the buffer and resets the
counter, a failed save leaves both exactly as they were before the save
call. -/
theorem batch_threshold_save (cfg : AppConfig) (st : ServiceState) (c : CycleInput)
    (h : cfg.db_save_interval_reads ≤ st.measurement_count + 1) :
    (runCycle cfg st c).storageSaves
      = st.storageSaves ++ [st.sensor_data_buffer ++ [c.reading]] ∧
    (c.saveOk = true → (runCycle cfg st c).sensor_data_buffer = [] ∧
      (runCycle cfg st c).measurement_count = 0) ∧
    (c.saveOk = false →
      (runCycle cfg st c).sensor_data_buffer = st.sensor_data_buffer ++ [c.reading] ∧
      (runCycle cfg st c).measurement_count = st.measurement_count + 1) := by
  cases hs : c.saveOk <;> cases hp : c.publisherConnected <;>
    simp [runCycle, h, hs, hp]

/-- Witness for C5: batch size 1, one fresh reading, successful save. -/
theorem batch_threshold_save_wit :
    ({ db_save_interval_reads := 1 : AppConfig }.db_save_interval_reads
        ≤ serviceInit.measurement_count + 1) ∧
    (runCycle { db_save_interval_reads := 1 } serviceInit
        { reading := bugReading, saveOk := true, publisherConnected := false }).storageSaves
      = [[bugReading]] ∧
    (runCycle { db_save_interval_reads := 1 } serviceInit
        { reading := bugReading, saveOk := true, publisherConnected := false }).sensor_data_buffer
      = [] ∧
    (runCycle { db_save_interval_reads := 1 } serviceInit
        { reading := bugReading, saveOk := true, publisherConnected := false }).measurement_count
      = 0 := by
  have h := batch_threshold_save { db_save_interval_reads := 1 } serviceInit
    { reading := bugReading, saveOk := true, publisherConnected := false }
    (by decide)
  exact ⟨by decide, h.1, (h.2.1 rfl).1, (h.2.1 rfl).2⟩

/-- Claim C6: with the timestamp as primary key and INSERT OR IGNORE,
saving a batch containing a reading whose timestamp is already stored
leaves exactly one row for that timestamp, the original row untouched,
and re-saving the same batch changes nothing. -/
theorem durable_idempotence (st : SqliteState) (batch : List SensorData)
    (r q : SensorData) (hinit : st.initialized = true) (hq : q ∈ st.rows)
    (hts : q.timestamp = r.timestamp)
    (hone : st.rows.countP (fun x => x.timestamp == r.timestamp) = 1)
    (hr : r ∈ batch) :
    ((save_sensor_readings st batch true).2.rows.countP
        (fun x => x.timestamp == r.timestamp) = 1) ∧
    q ∈ (save_sensor_readings st batch true).2.rows ∧
    (save_sensor_readings (save_sensor_readings st batch true).2 batch true).2.rows
      = (save_sensor_readings st batch true).2.rows := by
  have hne : batch.isEmpty = false := by
    cases batch with
    | nil => cases hr
    | cons a l => rfl
  have hany : st.rows.any (fun x => x.timestamp == r.timestamp) = true :=
    List.any_eq_true.mpr ⟨q, hq, by simp [hts]⟩
  have h1 : (save_sensor_readings st batch true).2
      = { st with rows := batch.foldl insertOrIgnore st.rows,
                  writeOps := st.writeOps + 1 } := by
    simp [save_sensor_readings, hinit, hne]
  rw [h1]
  refine ⟨?_, ?_, ?_⟩
  · show (batch.foldl insertOrIgnore st.rows).countP
      (fun x => x.timestamp == r.timestamp) = 1
    rw [foldl_insertOrIgnore_countP batch st.rows r.timestamp hany]
    exact hone
  · exact foldl_insertOrIgnore_mem batch st.rows q hq
  · show (save_sensor_readings
        { st with rows := batch.foldl insertOrIgnore st.rows,
                  writeOps := st.writeOps + 1 } batch true).2.rows
      = batch.foldl insertOrIgnore st.rows
    have h2 : ∀ x ∈ batch,
        (batch.foldl insertOrIgnore st.rows).any
          (fun p => p.timestamp == x.timestamp) = true :=
      fun x hx => foldl_insertOrIgnore_elem_any batch st.rows x hx
    simp [save_sensor_readings, hinit, hne]
    exact foldl_insertOrIgnore_id batch _ h2

/-- The stored row and the re-inserted reading used in the C6 witness:
same timestamp, different sensor values. -/
def storedRow : SensorData :=
  { timestamp := "t1", device_id := "d1",
    temperature := none, humidity := none, light := none }

/-- A later reading that reuses the timestamp of `storedRow`. -/
def dupReading : SensorData :=
  { timestamp := "t1", device_id := "d1",
    temperature := some 21, humidity := none, light := none }

/-- Witness for C6 at a one-row store and a one-element batch reusing
the stored timestamp. -/
theorem durable_idempotence_wit :
    ((save_sensor_readings ⟨true, [storedRow], 0⟩ [dupReading] true).2.rows.countP
        (fun x => x.timestamp == dupReading.timestamp) = 1) ∧
    storedRow ∈ (save_sensor_readings ⟨true, [storedRow], 0⟩ [dupReading] true).2.rows ∧
    (save_sensor_readings
        (save_sensor_readings ⟨true, [storedRow], 0⟩ [dupReading] true).2
        [dupReading] true).2.rows
      = (save_sensor_readings ⟨true, [storedRow], 0⟩ [dupReading] true).2.rows :=
  durable_idempotence ⟨true, [storedRow], 0⟩ [dupReading] dupReading storedRow
    rfl (by simp) rfl (by decide) (by simp)

/-- Claim C7: an empty device id or one with the temporary prefix makes
`initialize()` fail, and the process never enters the cycle loop: no
cycle runs, nothing is buffered, saved or published. -/
theorem fatal_identity_blocks_run (cfg : AppConfig) (device_id : String)
    (cycles : List CycleInput)
    (h : device_id.data.isEmpty = true ∨
      "temp-".data.isPrefixOf device_id.data = true) :
    initResult device_id = false ∧
    (mainRun cfg device_id cycles).cyclesRun = 0 ∧
    (mainRun cfg device_id cycles).sensor_data_buffer = [] ∧
    (mainRun cfg device_id cycles).storageSaves = [] ∧
    (mainRun cfg device_id cycles).publishAttempts = 0 := by
  have hinit : initResult device_id = false := by
    unfold initResult
    rcases h with h | h <;> simp [h]
  refine ⟨hinit, ?_, ?_, ?_, ?_⟩ <;>
    simp [mainRun, serviceRun, hinit, serviceShutdown, serviceInit]

/-- Witness for C7 at a temporary device id and a non-empty cycle list. -/
theorem fatal_identity_blocks_run_wit :
    initResult "temp-x" = false ∧
    (mainRun defaultConfig "temp-x"
        [{ reading := bugReading, saveOk := true, publisherConnected := true }]).cyclesRun
      = 0 ∧
    (mainRun defaultConfig "temp-x"
        [{ reading := bugReading, saveOk := true, publisherConnected := true }]).sensor_data_buffer
      = [] ∧
    (mainRun defaultConfig "temp-x"
        [{ reading := bugReading, saveOk := true, publisherConnected := true }]).storageSaves
      = [] ∧
    (mainRun defaultConfig "temp-x"
        [{ reading := bugReading, saveOk := true, publisherConnected := true }]).publishAttempts
      = 0 :=
  fatal_identity_blocks_run defaultConfig "temp-x"
    [{ reading := bugReading, saveOk := true, publisherConnected := true }]
    (Or.inr (by decide))

/-- Claim C8: on the lower-cased command "reboot" the handler attempts
publisher disconnect (and listener stop) and then invokes
`execute_reboot` exactly once, the reboot call coming last; on any other
command the executor is never invoked and no error propagates to the
caller. -/
theorem admin_reboot_dispatch (command : String)
    (hasAdminListener disconnectRaises : Bool) (h : command ≠ "reboot") :
    ((handle_admin_command "reboot" hasAdminListener disconnectRaises).1.count
        AdminEffect.rebootCall = 1) ∧
    AdminEffect.publisherDisconnectCall
      ∈ (handle_admin_command "reboot" hasAdminListener disconnectRaises).1 ∧
    ((handle_admin_command "reboot" hasAdminListener disconnectRaises).1.getLast?
      = some AdminEffect.rebootCall) ∧
    ((handle_admin_command command hasAdminListener disconnectRaises).1.count
        AdminEffect.rebootCall = 0) ∧
    (handle_admin_command command hasAdminListener disconnectRaises).2 = false := by
  refine ⟨?_, ?_, ?_, ?_, ?_⟩
  · cases hasAdminListener <;> cases disconnectRaises <;> decide
  · cases hasAdminListener <;> cases disconnectRaises <;> decide
  · cases hasAdminListener <;> cases disconnectRaises <;> decide
  · simp [handle_admin_command, h]
  · simp [handle_admin_command, h]

/-- Witness for C8 at the unrecognized command "foo". -/
theorem admin_reboot_dispatch_wit :
    ((handle_admin_command "reboot" true false).1.count AdminEffect.rebootCall = 1) ∧
    ((handle_admin_command "foo" true false).1.count AdminEffect.rebootCall = 0) ∧
    (handle_admin_command "foo" true false).2 = false := by
  have h := admin_reboot_dispatch "foo" true false (by decide)
  exact ⟨h.1, h.2.2.2.1, h.2.2.2.2⟩

/-- Claim C9: `connect()` is idempotent; a second call while the
supervision thread is alive starts nothing new, and there is never more
than one live supervision task. -/
theorem connect_idempotent (st : MqttState)
    (h : st.liveSupervisionTasks = if st.threadAlive then 1 else 0) :
    (connect st).liveSupervisionTasks ≤ 1 ∧
    connect (connect st) = connect st ∧
    (connect (connect st)).spawnedThreads = (connect st).spawnedThreads ∧
    (connect (connect st)).liveSupervisionTasks ≤ 1 := by
  cases ht : st.threadAlive <;> simp [ht] at h <;> simp [connect, ht, h]

/-- Witness for C9 at the freshly initialised adapter state. -/
theorem connect_idempotent_wit :
    (connect (mqttInit defaultConfig)).liveSupervisionTasks ≤ 1 ∧
    connect (connect (mqttInit defaultConfig)) = connect (mqttInit defaultConfig) ∧
    (connect (connect (mqttInit defaultConfig))).spawnedThreads
      = (connect (mqttInit defaultConfig)).spawnedThreads ∧
    (connect (connect (mqttInit defaultConfig))).liveSupervisionTasks ≤ 1 :=
  connect_idempotent (mqttInit defaultConfig) rfl

/-- Claim C10: saving an empty batch on an initialized store succeeds
and performs no database write: the state, rows included, is returned
unchanged. -/
theorem save_empty_batch_noop (st : SqliteState) (dbOk : Bool)
    (h : st.initialized = true) :
    save_sensor_readings st [] dbOk = (true, st) := by
  simp [save_sensor_readings, h]

/-- Witness for C10s theorem at an initialized store holding one row. -/
theorem save_empty_batch_noop_wit :
    save_sensor_readings ⟨true, [storedRow], 3⟩ [] true
      = (true, ⟨true, [storedRow], 3⟩) :=
  save_empty_batch_noop ⟨true, [storedRow], 3⟩ true rfl

end RatSensor
